import Mathlib

/-!
# Verification of the jspsych-canvas-button-response plugin

Shallow embedding of `src/jspsych-canvas-button-response.js` (the single
source file of the repository).  The plugin renders a canvas stimulus plus
one clickable button per choice label, records the first response together
with its reaction time, and reports a trial-data record to the host.

Modelling conventions:
* JavaScript dynamic values that flow into the response record are modelled
  by `JVal` (null / number / string), so that the distinction between the
  number `1` and the attribute string `"1"` is preserved.
* The `trial` parameter object is the structure `Trial`; the JS default
  `canvasId: false` is modelled as `none`.
* Required parameters that the host may fail to supply (`stimulus`,
  `choices`) are `Option`s; reading a missing one raises the corresponding
  JavaScript `TypeError`, modelled by `Except.error`.
* `plugin.trial` up to the arming of the timers is `runSetup`; it returns
  the list of observable setup events (DOM write, start-timestamp capture,
  listener attachment, stimulus-callback invocation, timer arming, console
  errors) together with either a `TypeError` or the widget state.
* The closures `after_response` / `end_trial` become state transformers on
  `WState`.  External stimuli (clicks, timer firings) are `Ev`; `step`
  models the browser event dispatch: the click listener sits on the wrapper
  div of each button (created by the render loop) and is never removed, so
  an activation is delivered exactly while the rendered subtree is still in
  the container.  The disable loop only sets the `disabled` attribute on
  `button` descendants of the caller-supplied markup, which does not stop
  activations arriving through non-button markup or the wrapper itself, so
  dispatch is not gated on it.
-/

namespace CanvasButtonResponse

/-- A JavaScript value as it appears in the response/result records:
`null`, a number, or a string. -/
inductive JVal where
  | null
  | num (n : Int)
  | str (s : String)
deriving Repr, DecidableEq, Inhabited

/-- The stimulus drawing callback: a function object (identified by `ref`)
that is called with the canvas id and returns arbitrary properties. -/
structure StimFn where
  ref : Nat
  run : String → JVal

instance : Inhabited StimFn := ⟨⟨0, fun _ => JVal.null⟩⟩

/-- The `button_html` parameter: a single shared template string, or a
per-choice array of template strings. -/
inductive BtnHtml where
  | shared (b : String)
  | perChoice (arr : List String)
deriving Inhabited

/-- Default of the `button_html` parameter (plugin.info, line 89). -/
def defaultButtonHtml : String := "<button class=\"jspsych-btn\">%choice%</button>"

/-- Id given to the generated default canvas (line 139). -/
def defaultCanvasId : String := "jspsych-canvas-button-response-canvas"

/-- The `trial` parameter object, with the defaults of `plugin.info`.
`canvasId = none` is the JS default `false`; `stimulus` and `choices`
have default `undefined` (required), modelled by `Option`. -/
structure Trial where
  stimulus : Option StimFn := none
  canvasHTML : Option String := none
  canvasId : Option String := none
  canvasWidth : Int := 300
  canvasHeight : Int := 150
  prompt : Option String := none
  choices : Option (List String) := none
  button_html : BtnHtml := BtnHtml.shared defaultButtonHtml
  stimulus_duration : Option Int := none
  trial_duration : Option Int := none
  response_ends_trial : Bool := true
  margin_vertical : String := "0px"
  margin_horizontal : String := "8px"
deriving Inhabited

/-- Lines 135-142: if `canvasId` is `false` the plugin assigns the default
id to `trial.canvasId` (mutating the host-supplied config object). -/
def resolvedTrial (t : Trial) : Trial :=
  match t.canvasId with
  | some _ => t
  | none => { t with canvasId := some defaultCanvasId }

/-- Lines 135-142: the value of the local variable `canvas` (the stimulus
markup).  When a custom `canvasId` is supplied, `canvas = trial.canvasHTML`;
a `null` canvasHTML is stringified to `"null"` by JS string concatenation. -/
def canvasMarkup (t : Trial) : String :=
  match t.canvasId with
  | some _ =>
    match t.canvasHTML with
    | some s => s
    | none => "null"
  | none =>
    "<canvas id=\"" ++ defaultCanvasId ++ "\" height=\"" ++ toString t.canvasHeight
      ++ "\" width=\"" ++ toString t.canvasWidth ++ "\"></canvas>"

/-- The pattern of the global regex `/%choice%/g` (line 161). -/
def choicePat : List Char := String.toList "%choice%"

/-- The backquote character, written by code point to keep it out of the
source text. -/
def backquoteChar : Char := Char.ofNat 96

/-- The single-quote character, written by code point to keep it out of
the source text. -/
def quoteChar : Char := Char.ofNat 39

/-- ECMAScript `GetSubstitution` for a string replacement with the regex
`/%choice%/g` (no capture groups): expand the replacement text at one
match site.  `pre` is the portion of the subject before the match, `post`
the portion after it.  `$$` yields `$`; `$&` yields the matched substring
(always `%choice%`); `$` + backquote yields `pre`; `$` + quote yields
`post`; every other `$`-sequence (including `$n`, as there are no capture
groups) is literal. -/
def expandRepl (pre post : List Char) : List Char → List Char
  | [] => []
  | c :: rest =>
    if c = '$' then
      match rest with
      | [] => ['$']
      | d :: rest2 =>
        if d = '$' then '$' :: expandRepl pre post rest2
        else if d = '&' then choicePat ++ expandRepl pre post rest2
        else if d = backquoteChar then pre ++ expandRepl pre post rest2
        else if d = quoteChar then post ++ expandRepl pre post rest2
        else '$' :: d :: expandRepl pre post rest2
    else c :: expandRepl pre post rest

/-- Left-to-right, non-overlapping global replacement of `%choice%`, the
semantics of `str.replace(/%choice%/g, repl)` on line 161, including the
JavaScript replacement-pattern expansion of the label (`expandRepl`).
`pre` accumulates the subject text already scanned (what precedes the
current position), which the `$`-backquote pattern refers to.  The `Nat`
argument is fuel (instantiated with the input length, which the scan
never exceeds) so that the recursion is structural. -/
def replaceChoiceAux (repl : List Char) : Nat → List Char → List Char → List Char
  | _, _, [] => []
  | 0, _, rest => rest
  | fuel + 1, pre, c :: rest =>
    if choicePat.isPrefixOf (c :: rest) then
      expandRepl pre (rest.drop (choicePat.length - 1)) repl
        ++ replaceChoiceAux repl fuel (pre ++ choicePat) (rest.drop (choicePat.length - 1))
    else
      c :: replaceChoiceAux repl fuel (pre ++ [c]) rest

/-- `template.replace(/%choice%/g, choice)` (line 161), with JavaScript
string-replacement semantics for `$`-patterns occurring in `choice`. -/
def replaceChoice (template choice : String) : String :=
  String.mk (replaceChoiceAux choice.toList template.toList.length [] template.toList)

/-- Plain textual replacement (every `%choice%` replaced by the label
verbatim), for comparison: labels free of `$` make `replaceChoice`
coincide with it (`replaceChoice_no_dollar`). -/
def verbatimAux (repl : List Char) : Nat → List Char → List Char
  | _, [] => []
  | 0, rest => rest
  | fuel + 1, c :: rest =>
    if choicePat.isPrefixOf (c :: rest) then
      repl ++ verbatimAux repl fuel (rest.drop (choicePat.length - 1))
    else
      c :: verbatimAux repl fuel rest

/-- Verbatim insertion of the label for every `%choice%` occurrence. -/
def verbatimReplace (template choice : String) : String :=
  String.mk (verbatimAux choice.toList template.toList.length template.toList)

/-- The wrapper div of the `i`-th button produced by line 162, carrying the
ordinal index both in its id suffix and in its `data-choice` attribute. -/
def buttonDiv (mv mh : String) (i : Nat) (str : String) : String :=
  "<div class=\"jspsych-canvas-button-response-button\" style=\"display: inline-block; margin:"
    ++ mv ++ " " ++ mh ++ "\" id=\"jspsych-canvas-button-response-button-" ++ toString i
    ++ "\" data-choice=\"" ++ toString i ++ "\">" ++ str ++ "</div>"

/-- Kinds of timers the plugin arms (lines 238-249). -/
inductive TKind where
  | hideStim
  | endTrial
deriving Repr, DecidableEq, Inhabited

/-- Observable events of the setup phase of `plugin.trial`. -/
inductive SetupEvent where
  | domWrite (html : String)
  | captureStart
  | attachListener (i : Nat)
  | invokeStimulus (canvasId : String)
  | armTimeout (k : TKind) (delay : Int)
  | consoleError (msg : String)
deriving Repr, DecidableEq, Inhabited

/-- The console.error message of line 151. -/
def lengthErrMsg : String :=
  "Error in canvas-button-response plugin. The length of the button_html array does not equal the length of the choices array"

/-- TypeError raised when `trial.choices` is `undefined` (line 148 / 154). -/
def choicesErrMsg : String := "TypeError: trial.choices is undefined"

/-- TypeError raised by `buttons[i].replace` when `buttons[i]` is
`undefined` (line 161, after a length mismatch left `buttons = []`). -/
def buttonsErrMsg : String := "TypeError: buttons[i] is undefined"

/-- TypeError raised by `trial.stimulus(trial.canvasId)` when the required
`stimulus` parameter is missing (line 188). -/
def stimulusErrMsg : String := "TypeError: trial.stimulus is not a function"

/-- Lines 146-157: the `buttons` array, together with any console error
logged on the way.  An array `button_html` of the wrong length logs the
error and leaves `buttons` empty; a shared template is replicated. -/
def computeButtons (bh : BtnHtml) (n : Nat) : List SetupEvent × List String :=
  match bh with
  | BtnHtml.perChoice arr =>
    if arr.length = n then ([], arr)
    else ([SetupEvent.consoleError lengthErrMsg], [])
  | BtnHtml.shared b => ([], List.replicate n b)

/-- Lines 160-163: the loop that builds one wrapper div per choice,
reading `buttons[i]` (a read past the end raises the TypeError of the
mismatch case). -/
def buttonDivsAux (buttons : List String) (mv mh : String) :
    Nat → List String → Except String (List String)
  | _, [] => Except.ok []
  | i, c :: cs =>
    match buttons.get? i with
    | none => Except.error buttonsErrMsg
    | some b =>
      match buttonDivsAux buttons mv mh (i + 1) cs with
      | Except.error e => Except.error e
      | Except.ok rest => Except.ok (buttonDiv mv mh i (replaceChoice b c) :: rest)

/-- Lines 143-169: the full markup written into the container: wrapper div,
stimulus div holding the canvas markup, button group, optional prompt.
(The wrapper div is left unclosed, exactly as in the source.) -/
def pageHtml (canvas : String) (divs : List String) (prompt : Option String) : String :=
  "<div id=\"jspsych-canvas-button-response-wrapper\" class=\"jspsych-button-response-wrapper\">"
    ++ "<div id=\"jspsych-canvas-button-response-stimulus\">" ++ canvas ++ "</div>"
    ++ "<div id=\"jspsych-canvas-button-response-btngroup\">" ++ String.join divs ++ "</div>"
    ++ (match prompt with | some p => p | none => "")

/-- The listener-attachment events of the loop on lines 176-181. -/
def attachEvents : Nat → List SetupEvent
  | 0 => []
  | n + 1 => attachEvents n ++ [SetupEvent.attachListener n]

/-- Timer-arming events, lines 238-249 (stimulus-hide first, then
trial-duration). -/
def armEvents (t : Trial) : List SetupEvent :=
  (match t.stimulus_duration with
   | some d => [SetupEvent.armTimeout TKind.hideStim d]
   | none => []) ++
  (match t.trial_duration with
   | some d => [SetupEvent.armTimeout TKind.endTrial d]
   | none => [])

/-- The timeouts registered with `jsPsych.pluginAPI.setTimeout`
(lines 238-249). -/
def pendingTimers (t : Trial) : List (Int × TKind) :=
  (match t.stimulus_duration with
   | some d => [(d, TKind.hideStim)]
   | none => []) ++
  (match t.trial_duration with
   | some d => [(d, TKind.endTrial)]
   | none => [])

/-- The `response` object of lines 184-188. -/
structure ResponseState where
  rt : JVal := JVal.null
  button : JVal := JVal.null
  stimulus_properties : JVal := JVal.null
deriving Inhabited

/-- The `trial_data` record assembled in `end_trial` (lines 222-226): it
has exactly the three keys `rt`, `stimulus`, `button_pressed`. -/
structure TrialData where
  rt : JVal
  stimulus : Option StimFn
  button_pressed : JVal
deriving Inhabited

/-- The state owned by one widget instance after `plugin.trial` has run:
the (possibly mutated) trial object, the captured start timestamp, the
`response` object, the container contents, CSS state of the stimulus div,
whether the rendered subtree is still in the container, whether the
disable loop of lines 203-208 has run (it sets the `disabled` attribute on
every element matching the document-global selector
`.jspsych-canvas-button-response-button button` — the widget's own button
descendants, if the caller markup contains any such elements, plus any
matching element elsewhere in the document, tracked in `externalMatches`),
the pending timeouts, and the results handed to `jsPsych.finishTrial`. -/
structure WState where
  trial : Trial
  startTime : Int
  response : ResponseState
  displayHTML : String
  stimulusClassName : String
  stimulusHidden : Bool
  btnsPresent : Bool
  disableLoopRan : Bool
  externalMatches : List Bool
  pending : List (Int × TKind)
  finished : List TrialData
deriving Inhabited

/-- The widget state at the end of a successful `plugin.trial` call. -/
def freshState (t : Trial) (now : Int) (doc0 : List Bool) (props : JVal)
    (html : String) : WState :=
  { trial := t
    startTime := now
    response := { rt := JVal.null, button := JVal.null, stimulus_properties := props }
    displayHTML := html
    stimulusClassName := ""
    stimulusHidden := false
    btnsPresent := true
    disableLoopRan := false
    externalMatches := doc0
    pending := pendingTimers t
    finished := [] }

/-- `plugin.trial` (lines 132-250) up to the arming of the timers.
`now` is the value `Date.now()` returns on line 174; `doc0` is the
disabled-state of selector-matching elements that live outside the supplied
container.  Returns the setup events and either the TypeError that aborted
the call or the resulting widget state. -/
def runSetup (t : Trial) (now : Int) (doc0 : List Bool) :
    List SetupEvent × Except String WState :=
  match t.choices with
  | none => ([], Except.error choicesErrMsg)
  | some cs =>
    match buttonDivsAux (computeButtons t.button_html cs.length).2
        t.margin_vertical t.margin_horizontal 0 cs with
    | Except.error e => ((computeButtons t.button_html cs.length).1, Except.error e)
    | Except.ok divs =>
      match t.stimulus with
      | none =>
        ((computeButtons t.button_html cs.length).1
          ++ [SetupEvent.domWrite (pageHtml (canvasMarkup t) divs t.prompt),
              SetupEvent.captureStart]
          ++ attachEvents cs.length,
         Except.error stimulusErrMsg)
      | some f =>
        ((computeButtons t.button_html cs.length).1
          ++ [SetupEvent.domWrite (pageHtml (canvasMarkup t) divs t.prompt),
              SetupEvent.captureStart]
          ++ attachEvents cs.length
          ++ [SetupEvent.invokeStimulus ((resolvedTrial t).canvasId.getD "")]
          ++ armEvents t,
         Except.ok (freshState (resolvedTrial t) now doc0
           (f.run ((resolvedTrial t).canvasId.getD ""))
           (pageHtml (canvasMarkup t) divs t.prompt)))

/-- `end_trial` (lines 216-233): clear all timeouts, assemble `trial_data`
from the response, clear the container, hand the data to the host. -/
def trial_data (s : WState) : TrialData :=
  { rt := s.response.rt
    stimulus := s.trial.stimulus
    button_pressed := s.response.button }

/-- The `end_trial` closure (lines 216-233). -/
def end_trial (s : WState) : WState :=
  { s with
    pending := []
    displayHTML := ""
    btnsPresent := false
    finished := s.finished ++ [trial_data { s with pending := [] }] }

/-- Lines 193-208 of `after_response`: record rt and button (the
`data-choice` attribute string), add the `responded` class to the stimulus
div, and run the disable loop of lines 203-208: it sets the `disabled`
attribute on every element matching the document-global selector
`.jspsych-canvas-button-response-button button`, which is every matching
element elsewhere in the document (`externalMatches`) and the widget's own
`button` descendants — nothing inside the widget, if the caller-supplied
template contains no `button` element.  The loop neither removes the
wrapper-div click listeners (line 206 is commented out in the source) nor
affects non-button markup, so it does not by itself stop later
activations. -/
def respondedState (s : WState) (choice : String) (now : Int) : WState :=
  { s with
    response :=
      { s.response with
        button := JVal.str choice
        rt := JVal.num (now - s.startTime) }
    stimulusClassName := s.stimulusClassName ++ " responded"
    disableLoopRan := true
    externalMatches := s.externalMatches.map (fun _ => true) }

/-- The `after_response` closure (lines 191-213).  There is no guard
against an already recorded response: the update is unconditional. -/
def after_response (s : WState) (choice : String) (now : Int) : WState :=
  if s.trial.response_ends_trial then end_trial (respondedState s choice now)
  else respondedState s choice now

/-- External events driving the widget after setup: a user click on the
`i`-th button wrapper at wall-clock time `t`, or a registered timeout
firing. -/
inductive Ev where
  | click (i : Nat) (t : Int)
  | fire (k : TKind)
deriving Repr, DecidableEq

/-- DOM click dispatch: the click listener is attached to the `i`-th
wrapper div (lines 176-181) and never removed (the `removeEventListener`
on line 206 is commented out), so an activation reaches `after_response`
whenever a listener exists for `i` (one per choice) and the rendered
subtree is still in the container (`end_trial` removes it by clearing
`innerHTML`).  The disable loop only sets the `disabled` attribute on
`button` descendants: that suppresses clicks that target a disabled
button, but with caller-supplied non-button markup (an explicitly
supported `button_html` value) the activation still reaches the wrapper
listener, so delivery does not depend on `disableLoopRan`. -/
def clickDelivered (s : WState) (i : Nat) : Bool :=
  decide (i < (s.trial.choices.getD []).length) && s.btnsPresent

/-- One external event processed by the event loop. -/
def step (s : WState) : Ev → WState
  | Ev.click i t =>
    if clickDelivered s i then after_response s (toString i) t else s
  | Ev.fire k =>
    if s.pending.any (fun p => decide (p.2 = k)) then
      let s1 := { s with pending := s.pending.filter (fun p => decide (p.2 ≠ k)) }
      match k with
      | TKind.hideStim => { s1 with stimulusHidden := true }
      | TKind.endTrial => end_trial s1
    else s

/-- A sequence of external events processed in order (the single-threaded
event loop). -/
def runEvents (s : WState) (es : List Ev) : WState := es.foldl step s

/-- Extract the widget state of a successful setup (used to build concrete
instances in closed theorems). -/
def okState (r : List SetupEvent × Except String WState) : WState :=
  match r.2 with
  | Except.ok s => s
  | Except.error _ => default

/-- Did the setup succeed (no TypeError)? -/
def isOkB : Except String WState → Bool
  | Except.ok _ => true
  | Except.error _ => false

/-- The payload of a successful render loop, `[]` on error. -/
def okListD : Except String (List String) → List String
  | Except.ok l => l
  | Except.error _ => []

/-- Is this event the stimulus-callback invocation? -/
def isInvokeEv : SetupEvent → Bool
  | SetupEvent.invokeStimulus _ => true
  | _ => false

/-- Is this event the start-timestamp capture? -/
def isCaptureEv : SetupEvent → Bool
  | SetupEvent.captureStart => true
  | _ => false

/-- Is this event a write into the host container? -/
def isDomWriteEv : SetupEvent → Bool
  | SetupEvent.domWrite _ => true
  | _ => false

/-! ## Concrete instances used in closed theorems -/

/-- A concrete drawing callback. -/
def stimA : StimFn := { ref := 0, run := fun _ => JVal.null }

/-- Two-choice trial used for the first-response property. -/
def c1t : Trial := { stimulus := some stimA, choices := some ["a", "b"] }

/-- Two-choice trial with a caller-supplied non-button template (anchor
elements) and `response_ends_trial = false`: the disable loop of line 204
matches no element inside the widget and the wrapper listener stays
attached, so a second activation still reaches `after_response`. -/
def c1ft : Trial :=
  { stimulus := some stimA
    choices := some ["a", "b"]
    button_html := BtnHtml.shared "<a class=\"jspsych-btn\">%choice%</a>"
    response_ends_trial := false }

/-- Trial whose per-choice template list length (2) mismatches its choice
count (1). -/
def c2t : Trial :=
  { stimulus := some stimA
    choices := some ["a"]
    button_html := BtnHtml.perChoice ["x", "y"] }

/-- Two-choice trial with per-choice templates of matching length. -/
def c3t : Trial :=
  { stimulus := some stimA
    choices := some ["a", "b"]
    button_html := BtnHtml.perChoice ["<b>%choice%</b>", "<i>%choice%</i>"] }

/-- The scenario configuration of the spec: two confidence labels, a
2000 ms duration cap, response ends trial. -/
def c4t : Trial :=
  { stimulus := some stimA
    choices := some ["Low confidence", "High confidence"]
    trial_duration := some 2000
    response_ends_trial := true }

/-- Same scenario configuration, for the timer-cancellation property. -/
def c5t : Trial :=
  { stimulus := some stimA
    choices := some ["Low confidence", "High confidence"]
    trial_duration := some 2000
    response_ends_trial := true }

/-- One-choice trial used for the event-ordering properties. -/
def c6t : Trial := { stimulus := some stimA, choices := some ["a"] }

/-- One-choice trial rendered next to a document that already holds one
other (non-disabled) element matching the button selector. -/
def c7t : Trial := { stimulus := some stimA, choices := some ["a"] }

/-- Trial with the default `canvasId: false`, so the renderer assigns the
generated id into the config object. -/
def c8t : Trial := { stimulus := some stimA, choices := some ["a"] }

/-- Trial with a caller-supplied canvas id (no config mutation). -/
def c8wt : Trial :=
  { stimulus := some stimA
    choices := some ["a"]
    canvasId := some "mycanvas"
    canvasHTML := some "<canvas id=\"mycanvas\"></canvas>" }

/-- Trial whose required drawing callback is missing. -/
def c9t : Trial := { stimulus := none, choices := some ["a"] }

/-- Trial whose required choice list is missing. -/
def c9wt : Trial := { stimulus := some stimA, choices := none }

/-- One-choice trial whose drawing callback returns a non-null payload. -/
def c10t : Trial :=
  { stimulus := some { ref := 1, run := fun _ => JVal.num 99 }
    choices := some ["a"] }

/-! ## Basic lemmas about the setup phase -/

@[simp] theorem resolvedTrial_choices (t : Trial) :
    (resolvedTrial t).choices = t.choices := by
  unfold resolvedTrial; cases t.canvasId <;> rfl

@[simp] theorem resolvedTrial_stimulus (t : Trial) :
    (resolvedTrial t).stimulus = t.stimulus := by
  unfold resolvedTrial; cases t.canvasId <;> rfl

@[simp] theorem resolvedTrial_button_html (t : Trial) :
    (resolvedTrial t).button_html = t.button_html := by
  unfold resolvedTrial; cases t.canvasId <;> rfl

@[simp] theorem resolvedTrial_response_ends_trial (t : Trial) :
    (resolvedTrial t).response_ends_trial = t.response_ends_trial := by
  unfold resolvedTrial; cases t.canvasId <;> rfl

@[simp] theorem resolvedTrial_trial_duration (t : Trial) :
    (resolvedTrial t).trial_duration = t.trial_duration := by
  unfold resolvedTrial; cases t.canvasId <;> rfl

theorem resolvedTrial_of_some (t : Trial) (cid : String) (h : t.canvasId = some cid) :
    resolvedTrial t = t := by
  unfold resolvedTrial; rw [h]

theorem resolvedTrial_eta (t : Trial) :
    { resolvedTrial t with canvasId := t.canvasId } = t := by
  rcases t with ⟨_, _, ci, _, _, _, _, _, _, _, _, _, _⟩
  cases ci <;> rfl

/-- Inversion of a successful `plugin.trial` setup: the required parameters
were present, the render loop succeeded, and the resulting state and event
list have the canonical shape. -/
theorem runSetup_ok_inv {t : Trial} {now : Int} {doc0 : List Bool}
    {evs : List SetupEvent} {s : WState}
    (h : runSetup t now doc0 = (evs, Except.ok s)) :
    ∃ (cs : List String) (f : StimFn) (divs : List String),
      t.choices = some cs ∧ t.stimulus = some f ∧
      buttonDivsAux (computeButtons t.button_html cs.length).2
          t.margin_vertical t.margin_horizontal 0 cs = Except.ok divs ∧
      s = freshState (resolvedTrial t) now doc0
            (f.run ((resolvedTrial t).canvasId.getD ""))
            (pageHtml (canvasMarkup t) divs t.prompt) ∧
      evs = (computeButtons t.button_html cs.length).1
            ++ [SetupEvent.domWrite (pageHtml (canvasMarkup t) divs t.prompt),
                SetupEvent.captureStart]
            ++ attachEvents cs.length
            ++ [SetupEvent.invokeStimulus ((resolvedTrial t).canvasId.getD "")]
            ++ armEvents t := by
  unfold runSetup at h
  split at h
  · exact absurd h (by simp)
  next cs hc =>
    split at h
    · exact absurd h (by simp)
    next divs hd =>
      split at h
      · exact absurd h (by simp)
      next f hf =>
        injection h with h1 h2
        injection h2 with h2
        exact ⟨cs, f, divs, hc, hf, hd, h2.symm, h1.symm⟩

/-! ## Basic lemmas about the response dynamics -/

@[simp] theorem end_trial_trial (s : WState) : (end_trial s).trial = s.trial := rfl

@[simp] theorem end_trial_response (s : WState) : (end_trial s).response = s.response := rfl

@[simp] theorem end_trial_startTime (s : WState) : (end_trial s).startTime = s.startTime := rfl

@[simp] theorem end_trial_disableLoopRan (s : WState) :
    (end_trial s).disableLoopRan = s.disableLoopRan := rfl

@[simp] theorem end_trial_externalMatches (s : WState) :
    (end_trial s).externalMatches = s.externalMatches := rfl

@[simp] theorem end_trial_pending (s : WState) : (end_trial s).pending = [] := rfl

@[simp] theorem end_trial_btnsPresent (s : WState) : (end_trial s).btnsPresent = false := rfl

@[simp] theorem end_trial_finished (s : WState) :
    (end_trial s).finished = s.finished
      ++ [{ rt := s.response.rt
            stimulus := s.trial.stimulus
            button_pressed := s.response.button }] := rfl

theorem after_response_trial (s : WState) (c : String) (now : Int) :
    (after_response s c now).trial = s.trial := by
  unfold after_response; split <;> rfl

theorem after_response_startTime (s : WState) (c : String) (now : Int) :
    (after_response s c now).startTime = s.startTime := by
  unfold after_response; split <;> rfl

theorem after_response_disableLoopRan (s : WState) (c : String) (now : Int) :
    (after_response s c now).disableLoopRan = true := by
  unfold after_response; split <;> rfl

theorem after_response_response (s : WState) (c : String) (now : Int) :
    (after_response s c now).response =
      { s.response with
        button := JVal.str c
        rt := JVal.num (now - s.startTime) } := by
  unfold after_response; split <;> rfl

theorem after_response_externalMatches (s : WState) (c : String) (now : Int) :
    (after_response s c now).externalMatches = s.externalMatches.map (fun _ => true) := by
  unfold after_response; split <;> rfl

theorem after_response_of_ends (s : WState) (c : String) (now : Int)
    (h : s.trial.response_ends_trial = true) :
    (after_response s c now).pending = []
    ∧ (after_response s c now).btnsPresent = false
    ∧ (after_response s c now).finished = s.finished
        ++ [{ rt := JVal.num (now - s.startTime)
              stimulus := s.trial.stimulus
              button_pressed := JVal.str c }] := by
  unfold after_response
  split
  · exact ⟨rfl, rfl, rfl⟩
  next hcond => exact absurd h hcond

theorem step_click_delivered {s : WState} {i : Nat} {t : Int}
    (h : clickDelivered s i = true) :
    step s (Ev.click i t) = after_response s (toString i) t := by
  simp [step, h]

theorem step_click_blocked {s : WState} {i : Nat} {t : Int}
    (h : clickDelivered s i = false) :
    step s (Ev.click i t) = s := by
  simp [step, h]

/-- Once the trial has ended (no pending timers, subtree removed) every
further event is a no-op. -/
theorem step_terminal {s : WState} (h1 : s.pending = []) (h2 : s.btnsPresent = false)
    (e : Ev) : step s e = s := by
  cases e with
  | click i t =>
    have : clickDelivered s i = false := by
      simp [clickDelivered, h2]
    simp [step, this]
  | fire k => simp [step, h1]

theorem runEvents_terminal {s : WState} (h1 : s.pending = []) (h2 : s.btnsPresent = false) :
    ∀ es : List Ev, runEvents s es = s := by
  intro es
  induction es with
  | nil => rfl
  | cons e es ih =>
    show runEvents (step s e) es = s
    rw [step_terminal h1 h2 e]
    exact ih

/-- Once the rendered subtree has been removed from the container, no
click is delivered, so such a state is a fixpoint of every click
sequence. -/
theorem runEvents_clicks_of_gone {s : WState} (h : s.btnsPresent = false) :
    ∀ cs : List (Nat × Int), runEvents s (cs.map (fun c => Ev.click c.1 c.2)) = s := by
  intro cs
  induction cs with
  | nil => rfl
  | cons c cs ih =>
    have hnd : clickDelivered s c.1 = false := by
      simp [clickDelivered, h]
    show runEvents (step s (Ev.click c.1 c.2)) (cs.map (fun c => Ev.click c.1 c.2)) = s
    rw [step_click_blocked hnd]
    exact ih

/-- Characterization of an arbitrary click sequence on a fresh widget
state whose trial has `response_ends_trial` set (the default): the first
click whose index has a listener wins — it ends the trial, which removes
the rendered subtree, so every later click is undelivered — and the state
is exactly the one produced by `after_response` on that click; if no click
qualifies, nothing changes at all. -/
theorem runEvents_clicks_char {s0 : WState}
    (h1 : s0.btnsPresent = true) (h2 : s0.trial.response_ends_trial = true) :
    ∀ cs : List (Nat × Int),
      match cs.find? (fun c => decide (c.1 < (s0.trial.choices.getD []).length)) with
      | none => runEvents s0 (cs.map (fun c => Ev.click c.1 c.2)) = s0
      | some c => runEvents s0 (cs.map (fun c => Ev.click c.1 c.2))
          = after_response s0 (toString c.1) c.2 := by
  intro cs
  induction cs with
  | nil => simp [runEvents]
  | cons c cs ih =>
    by_cases hc : c.1 < (s0.trial.choices.getD []).length
    · rw [List.find?_cons_of_pos _ (by simpa using hc)]
      have hdel : clickDelivered s0 c.1 = true := by
        simp [clickDelivered, h1, hc]
      show runEvents (step s0 (Ev.click c.1 c.2)) (cs.map (fun c => Ev.click c.1 c.2))
          = after_response s0 (toString c.1) c.2
      rw [step_click_delivered hdel]
      exact runEvents_clicks_of_gone (after_response_of_ends s0 _ _ h2).2.1 cs
    · rw [List.find?_cons_of_neg _ (by simpa using hc)]
      have hnd : clickDelivered s0 c.1 = false := by
        simp [clickDelivered, hc]
      have hstep : runEvents s0 ((c :: cs).map (fun c => Ev.click c.1 c.2))
          = runEvents s0 (cs.map (fun c => Ev.click c.1 c.2)) := by
        show runEvents (step s0 (Ev.click c.1 c.2)) (cs.map (fun c => Ev.click c.1 c.2))
            = runEvents s0 (cs.map (fun c => Ev.click c.1 c.2))
        rw [step_click_blocked hnd]
      rw [hstep]
      exact ih

/-! ## The render loop -/

/-- A replacement text without `$` passes through the ECMAScript
substitution expansion unchanged. -/
theorem expandRepl_no_dollar (pre post : List Char) :
    ∀ repl : List Char, ('$' : Char) ∉ repl → expandRepl pre post repl = repl := by
  intro repl
  induction repl with
  | nil => intro _; rfl
  | cons c rest ih =>
    intro h
    have hc : ¬ c = '$' := fun hcc => h (hcc ▸ List.mem_cons_self c rest)
    have hrest : ('$' : Char) ∉ rest := fun hm => h (List.mem_cons_of_mem c hm)
    rw [expandRepl.eq_def]
    dsimp only
    rw [if_neg hc, ih hrest]

/-- For a label without `$`, the JavaScript replacement is plain verbatim
insertion of the label. -/
theorem replaceChoiceAux_no_dollar (repl : List Char) (h : ('$' : Char) ∉ repl) :
    ∀ (fuel : Nat) (pre l : List Char),
      replaceChoiceAux repl fuel pre l = verbatimAux repl fuel l := by
  intro fuel
  induction fuel with
  | zero =>
    intro pre l
    cases l <;> rfl
  | succ fuel ih =>
    intro pre l
    cases l with
    | nil => rfl
    | cons c rest =>
      show (if choicePat.isPrefixOf (c :: rest) then
              expandRepl pre (rest.drop (choicePat.length - 1)) repl
                ++ replaceChoiceAux repl fuel (pre ++ choicePat)
                    (rest.drop (choicePat.length - 1))
            else c :: replaceChoiceAux repl fuel (pre ++ [c]) rest)
          = (if choicePat.isPrefixOf (c :: rest) then
              repl ++ verbatimAux repl fuel (rest.drop (choicePat.length - 1))
            else c :: verbatimAux repl fuel rest)
      by_cases hp : choicePat.isPrefixOf (c :: rest)
      · rw [if_pos hp, if_pos hp, expandRepl_no_dollar _ _ repl h, ih]
      · rw [if_neg hp, if_neg hp, ih]

/-- `replaceChoice` coincides with verbatim substitution whenever the
label contains no `$`. -/
theorem replaceChoice_no_dollar (template choice : String)
    (h : ('$' : Char) ∉ choice.toList) :
    replaceChoice template choice = verbatimReplace template choice := by
  unfold replaceChoice verbatimReplace
  rw [replaceChoiceAux_no_dollar choice.toList h]

/-- When every index the loop reads is in bounds, the render loop of lines
160-163 produces one wrapper div per choice, the `j`-th built from
`buttons[k+j]` with the `j`-th label substituted. -/
theorem buttonDivsAux_spec (buttons : List String) (mv mh : String) :
    ∀ (cs : List String) (k : Nat),
      (∀ j, j < cs.length → k + j < buttons.length) →
      ∃ divs, buttonDivsAux buttons mv mh k cs = Except.ok divs ∧
        divs.length = cs.length ∧
        ∀ j, j < cs.length →
          divs.getD j "" = buttonDiv mv mh (k + j)
            (replaceChoice (buttons.getD (k + j) "") (cs.getD j "")) := by
  intro cs
  induction cs with
  | nil =>
    intro k _
    exact ⟨[], rfl, rfl, fun j hj => absurd hj (by simp)⟩
  | cons c cs ih =>
    intro k h
    have hk : k < buttons.length := by simpa using h 0 (by simp)
    have hbk : buttons.get? k = some (buttons.get ⟨k, hk⟩) := List.get?_eq_get hk
    obtain ⟨rest, hrest, hlen, hget⟩ := ih (k + 1)
      (fun j hj => by
        have := h (j + 1) (by simpa using Nat.succ_lt_succ hj)
        omega)
    refine ⟨buttonDiv mv mh k (replaceChoice (buttons.get ⟨k, hk⟩) c) :: rest, ?_, ?_, ?_⟩
    · show (match buttons.get? k with
            | none => Except.error buttonsErrMsg
            | some b =>
              match buttonDivsAux buttons mv mh (k + 1) cs with
              | Except.error e => Except.error e
              | Except.ok rest => Except.ok (buttonDiv mv mh k (replaceChoice b c) :: rest))
          = Except.ok (buttonDiv mv mh k (replaceChoice (buttons.get ⟨k, hk⟩) c) :: rest)
      rw [hbk, hrest]
    · simp [hlen]
    · intro j hj
      cases j with
      | zero =>
        simp only [List.getD_cons_zero, Nat.add_zero]
        have hgd : buttons.getD k "" = buttons.get ⟨k, hk⟩ := by
          rw [List.getD_eq_getElem?_getD, List.getElem?_eq_getElem hk]
          rfl
        rw [hgd]
      | succ j =>
        have hj2 : j < cs.length := by simpa using hj
        have := hget j hj2
        have harith : k + (j + 1) = k + 1 + j := by omega
        simpa [harith] using this

/-! ## Shape of the setup event list -/

theorem mem_computeButtons_fst {e : SetupEvent} {bh : BtnHtml} {n : Nat}
    (h : e ∈ (computeButtons bh n).1) : e = SetupEvent.consoleError lengthErrMsg := by
  unfold computeButtons at h
  rcases bh with b | arr
  · simp at h
  · by_cases hlen : arr.length = n <;> simp [hlen] at h
    exact h

theorem mem_attachEvents {e : SetupEvent} :
    ∀ {n : Nat}, e ∈ attachEvents n → ∃ i, e = SetupEvent.attachListener i := by
  intro n
  induction n with
  | zero => intro h; simp [attachEvents] at h
  | succ n ih =>
    intro h
    rw [attachEvents, List.mem_append] at h
    rcases h with h | h
    · exact ih h
    · simp at h; exact ⟨n, h⟩

theorem mem_armEvents {e : SetupEvent} {t : Trial} (h : e ∈ armEvents t) :
    ∃ k d, e = SetupEvent.armTimeout k d := by
  unfold armEvents at h
  rw [List.mem_append] at h
  rcases h with h | h <;>
    [rcases hsd : t.stimulus_duration with _ | d;
     rcases hsd : t.trial_duration with _ | d] <;>
    rw [hsd] at h <;> simp at h <;> exact ⟨_, d, h⟩

theorem attachEvents_length (n : Nat) : (attachEvents n).length = n := by
  induction n with
  | zero => rfl
  | succ n ih => simp [attachEvents, ih]

theorem filter_attachEvents (p : SetupEvent → Bool)
    (hp : ∀ i, p (SetupEvent.attachListener i) = false) :
    ∀ n, (attachEvents n).filter p = [] := by
  intro n
  induction n with
  | zero => rfl
  | succ n ih =>
    rw [attachEvents, List.filter_append, ih]
    simp [hp]

/-- `findIdx` over an append whose first part contains no hit. -/
theorem findIdx_append_of_none (p : SetupEvent → Bool) (l1 l2 : List SetupEvent)
    (h : ∀ a ∈ l1, p a = false) :
    List.findIdx p (l1 ++ l2) = l1.length + List.findIdx p l2 := by
  induction l1 with
  | nil => simp
  | cons a l ih =>
    rw [List.cons_append, List.findIdx_cons, h a (List.mem_cons_self a l)]
    simp only [cond_false]
    rw [ih (fun b hb => h b (List.mem_cons_of_mem a hb))]
    simp only [List.length_cons]
    omega

/-! ## Claim theorems -/

/-- C10: the drawing-callback return value is stored verbatim on the
response state at stimulus invocation, but the record handed to the
completion sink contains only the reaction time, the drawing-callback
reference, and the chosen-button value — it does not depend on the stored
`stimulus_properties`. -/
theorem c10_result_omits_stimulus_properties :
    (∀ (s : WState) (p : JVal),
      (end_trial { s with response := { s.response with stimulus_properties := p } }).finished
        = s.finished
          ++ [{ rt := s.response.rt
                stimulus := s.trial.stimulus
                button_pressed := s.response.button }])
    ∧ (∀ (t : Trial) (now : Int) (doc0 : List Bool) (evs : List SetupEvent)
        (s : WState) (f : StimFn),
        runSetup t now doc0 = (evs, Except.ok s) → t.stimulus = some f →
        s.response.stimulus_properties = f.run ((resolvedTrial t).canvasId.getD "")) := by
  constructor
  · intro s p
    rfl
  · intro t now doc0 evs s f h hf
    obtain ⟨cs, f2, divs, hc, hf2, hd, hs, he⟩ := runSetup_ok_inv h
    rw [hf] at hf2
    injection hf2 with hf2
    subst hf2
    subst hs
    rfl

/-- Witness for C10 at a concrete trial whose callback returns `num 99`. -/
theorem c10_witness :
    ((end_trial { okState (runSetup c10t 0 []) with
        response := { (okState (runSetup c10t 0 [])).response with
          stimulus_properties := JVal.num 7 } }).finished
      = (okState (runSetup c10t 0 [])).finished
        ++ [{ rt := (okState (runSetup c10t 0 [])).response.rt
              stimulus := (okState (runSetup c10t 0 [])).trial.stimulus
              button_pressed := (okState (runSetup c10t 0 [])).response.button }])
    ∧ (okState (runSetup c10t 0 [])).response.stimulus_properties
        = JVal.num 99 := by
  have h := c10_result_omits_stimulus_properties
  refine ⟨h.1 (okState (runSetup c10t 0 [])) (JVal.num 7), ?_⟩
  have h2 := h.2 c10t 0 [] (runSetup c10t 0 []).1 (okState (runSetup c10t 0 []))
    { ref := 1, run := fun _ => JVal.num 99 } rfl rfl
  exact h2

/-- C7 counterexample: an element outside the host container that matches
the class selector of line 204 is written (disabled) by the widget's
response handling, refuting that no operation writes elements outside the
supplied container. -/
theorem c7_counterexample :
    (runSetup c7t 0 [false]).2 = Except.ok (okState (runSetup c7t 0 [false]))
    ∧ (okState (runSetup c7t 0 [false])).externalMatches = [false]
    ∧ (step (okState (runSetup c7t 0 [false])) (Ev.click 0 3)).externalMatches = [true] := by
  exact ⟨rfl, rfl, rfl⟩

/-- C7 amended: every DOM mutation except button disabling is scoped to the
widget state owned by the container; `after_response` disables every
element matching the document-global selector — including elements outside
the container — while `end_trial` and timer firings leave outside elements
untouched. -/
theorem c7_amended_global_disable :
    (∀ (s : WState) (c : String) (now : Int),
      (after_response s c now).externalMatches = s.externalMatches.map (fun _ => true))
    ∧ (∀ s : WState, (end_trial s).externalMatches = s.externalMatches)
    ∧ (∀ (s : WState) (k : TKind),
        (step s (Ev.fire k)).externalMatches = s.externalMatches) := by
  refine ⟨after_response_externalMatches, fun s => rfl, ?_⟩
  intro s k
  simp only [step]
  split
  · cases k <;> rfl
  · rfl

/-- C8 counterexample: with the default `canvasId = false` (here `none`)
the renderer overwrites `trial.canvasId` with the generated default id, so
the configuration object is not immutable during the trial. -/
theorem c8_counterexample :
    c8t.canvasId = none
    ∧ (runSetup c8t 0 []).2 = Except.ok (okState (runSetup c8t 0 []))
    ∧ (okState (runSetup c8t 0 [])).trial.canvasId = some defaultCanvasId := by
  exact ⟨rfl, rfl, rfl⟩

/-- C8 amended: the configuration is immutable except for `canvasId`: a
caller-supplied canvas id is never touched, every other field survives the
render unchanged, and no post-render operation modifies the trial object
at all. -/
theorem c8_amended_only_canvasId_mutated :
    (∀ (t : Trial) (cid : String), t.canvasId = some cid → resolvedTrial t = t)
    ∧ (∀ t : Trial, { resolvedTrial t with canvasId := t.canvasId } = t)
    ∧ (∀ (t : Trial) (now : Int) (doc0 : List Bool) (evs : List SetupEvent) (s : WState),
        runSetup t now doc0 = (evs, Except.ok s) → s.trial = resolvedTrial t)
    ∧ (∀ (s : WState) (e : Ev), (step s e).trial = s.trial) := by
  refine ⟨resolvedTrial_of_some, resolvedTrial_eta, ?_, ?_⟩
  · intro t now doc0 evs s h
    obtain ⟨cs, f, divs, hc, hf, hd, hs, he⟩ := runSetup_ok_inv h
    subst hs
    rfl
  · intro s e
    cases e with
    | click i t2 =>
      by_cases hdel : clickDelivered s i
      · rw [step_click_delivered hdel, after_response_trial]
      · rw [step_click_blocked (by simpa using hdel)]
    | fire k =>
      simp only [step]
      split
      · cases k <;> rfl
      · rfl

/-- Witness for C8 amended, applied at a trial with a caller-supplied
canvas id and at a concrete post-setup state and event. -/
theorem c8_witness :
    resolvedTrial c8wt = c8wt
    ∧ (okState (runSetup c8t 0 [])).trial = resolvedTrial c8t
    ∧ (step (okState (runSetup c8t 0 [])) (Ev.fire TKind.endTrial)).trial
        = (okState (runSetup c8t 0 [])).trial := by
  have h := c8_amended_only_canvasId_mutated
  exact ⟨h.1 c8wt "mycanvas" rfl,
         h.2.2.1 c8t 0 [] (runSetup c8t 0 []).1 (okState (runSetup c8t 0 [])) rfl,
         h.2.2.2 (okState (runSetup c8t 0 [])) (Ev.fire TKind.endTrial)⟩

/-- C2 counterexample: with one choice and a two-element template list the
renderer logs the configuration error but then aborts with a TypeError
(`buttons[0]` is `undefined`); it does not proceed to render the trial
with zero buttons. -/
theorem c2_counterexample :
    runSetup c2t 0 [] = ([SetupEvent.consoleError lengthErrMsg], Except.error buttonsErrMsg)
    ∧ isOkB (runSetup c2t 0 []).2 = false := by
  exact ⟨rfl, rfl⟩

/-- C2 amended: on a template/choice length mismatch the renderer logs the
configuration error and then, for any non-empty choice list, throws a
TypeError while building the buttons (the empty `buttons` array is indexed
past its end); no trial is rendered. -/
theorem c2_amended_mismatch_throws (t : Trial) (now : Int) (doc0 : List Bool)
    (cs arr : List String)
    (hc : t.choices = some cs) (hb : t.button_html = BtnHtml.perChoice arr)
    (hlen : arr.length ≠ cs.length) (hne : cs ≠ []) :
    runSetup t now doc0 = ([SetupEvent.consoleError lengthErrMsg], Except.error buttonsErrMsg) := by
  rcases cs with _ | ⟨c, cs⟩
  · exact absurd rfl hne
  have hcb : computeButtons t.button_html (c :: cs).length
      = ([SetupEvent.consoleError lengthErrMsg], []) := by
    unfold computeButtons
    rw [hb]
    simp only [List.length_cons]
    rw [if_neg (by simpa using hlen)]
  unfold runSetup
  rw [hc]
  simp only [hcb]
  rfl

/-- Witness for C2 amended at the concrete mismatching trial. -/
theorem c2_witness :
    c2t.choices = some ["a"]
    ∧ c2t.button_html = BtnHtml.perChoice ["x", "y"]
    ∧ runSetup c2t 5 [] = ([SetupEvent.consoleError lengthErrMsg], Except.error buttonsErrMsg) := by
  exact ⟨rfl, rfl,
    c2_amended_mismatch_throws c2t 5 [] ["a"] ["x", "y"] rfl rfl (by decide) (by decide)⟩

/-- C9 counterexample: with the drawing callback missing, the renderer
fails with the synchronous TypeError only after the markup has already
been written into the host container, refuting fail-fast-before-rendering
for this required field. -/
theorem c9_counterexample :
    (runSetup c9t 0 []).2 = Except.error stimulusErrMsg
    ∧ (runSetup c9t 0 []).1.any isDomWriteEv = true := by
  exact ⟨rfl, rfl⟩

/-- C9 amended: a missing choice list aborts synchronously before any
event (in particular before any DOM write); a missing drawing callback
(with an otherwise renderable configuration) also aborts synchronously,
but only after the markup has been written into the container. -/
theorem c9_amended_failure_points :
    (∀ (t : Trial) (now : Int) (doc0 : List Bool), t.choices = none →
      runSetup t now doc0 = ([], Except.error choicesErrMsg))
    ∧ (∀ (t : Trial) (now : Int) (doc0 : List Bool) (cs : List String) (b : String),
        t.stimulus = none → t.choices = some cs → t.button_html = BtnHtml.shared b →
        (runSetup t now doc0).2 = Except.error stimulusErrMsg
        ∧ (runSetup t now doc0).1.any isDomWriteEv = true) := by
  constructor
  · intro t now doc0 h
    unfold runSetup
    rw [h]
  · intro t now doc0 cs b hs hc hb
    have hcb : computeButtons t.button_html cs.length = ([], List.replicate cs.length b) := by
      unfold computeButtons
      rw [hb]
    obtain ⟨divs, hd, hlen, hget⟩ :=
      buttonDivsAux_spec (List.replicate cs.length b) t.margin_vertical t.margin_horizontal cs 0
        (fun j hj => by simpa using hj)
    unfold runSetup
    rw [hc]
    simp only [hcb, hd, hs]
    constructor
    · trivial
    · simp [isDomWriteEv]

/-- Witness for C9 amended at the two concrete deficient trials. -/
theorem c9_witness :
    runSetup c9wt 3 [] = ([], Except.error choicesErrMsg)
    ∧ (runSetup c9t 3 []).2 = Except.error stimulusErrMsg
    ∧ (runSetup c9t 3 []).1.any isDomWriteEv = true := by
  have h := c9_amended_failure_points
  have h2 := h.2 c9t 3 [] ["a"] defaultButtonHtml rfl rfl rfl
  exact ⟨h.1 c9wt 3 [] rfl, h2.1, h2.2⟩

/-- C3: for a valid configuration (non-empty choices, any per-choice
template list of matching length) the render loop succeeds and the button
group written into the container holds exactly one wrapper div per choice;
the `j`-th div carries ordinal index `j` (id suffix and `data-choice`, see
`buttonDiv`) and its markup is its own template with every `%choice%`
replaced by the `j`-th label. -/
theorem c3_buttons_rendered (t : Trial) (now : Int) (doc0 : List Bool)
    (evs : List SetupEvent) (s : WState) (cs : List String)
    (h : runSetup t now doc0 = (evs, Except.ok s))
    (hc : t.choices = some cs) (hne : cs ≠ [])
    (hmatch : ∀ arr, t.button_html = BtnHtml.perChoice arr → arr.length = cs.length) :
    ∃ divs : List String,
      buttonDivsAux (computeButtons t.button_html cs.length).2
          t.margin_vertical t.margin_horizontal 0 cs = Except.ok divs
      ∧ divs.length = cs.length
      ∧ s.displayHTML = pageHtml (canvasMarkup t) divs t.prompt
      ∧ ∀ j, j < cs.length →
          divs.getD j "" = buttonDiv t.margin_vertical t.margin_horizontal j
            (replaceChoice (((computeButtons t.button_html cs.length).2).getD j "")
              (cs.getD j "")) := by
  obtain ⟨cs2, f, divs, hc2, hf, hd, hs, he⟩ := runSetup_ok_inv h
  rw [hc] at hc2
  injection hc2 with hc2
  subst hc2
  subst hs
  have hblen : ((computeButtons t.button_html cs.length).2).length = cs.length := by
    rcases hbh : t.button_html with b | arr
    · simp [computeButtons, hbh]
    · simp [computeButtons, hbh, hmatch arr hbh]
  obtain ⟨divs2, hd2, hlen2, hget2⟩ :=
    buttonDivsAux_spec ((computeButtons t.button_html cs.length).2)
      t.margin_vertical t.margin_horizontal cs 0
      (fun j hj => by rw [hblen]; omega)
  rw [hd] at hd2
  injection hd2 with hd2
  subst hd2
  refine ⟨divs, hd, hlen2, rfl, ?_⟩
  intro j hj
  simpa using hget2 j hj

/-- Witness for C3 at a concrete two-choice trial with distinct per-choice
templates. -/
theorem c3_witness :
    (okState (runSetup c3t 0 [])).displayHTML
      = pageHtml (canvasMarkup c3t)
          (okListD (buttonDivsAux (computeButtons c3t.button_html 2).2
            c3t.margin_vertical c3t.margin_horizontal 0 ["a", "b"]))
          c3t.prompt := by
  obtain ⟨divs, hok, hlen, hdisp, hget⟩ :=
    c3_buttons_rendered c3t 0 [] (runSetup c3t 0 []).1 (okState (runSetup c3t 0 []))
      ["a", "b"] rfl rfl (by decide)
      (by
        intro arr harr
        simp only [c3t] at harr
        injection harr with harr
        subst harr
        rfl)
  rw [hdisp,
      show buttonDivsAux (computeButtons c3t.button_html 2).2
          c3t.margin_vertical c3t.margin_horizontal 0 ["a", "b"] = Except.ok divs from hok]
  rfl

/-- C6 counterexample: at a concrete trial the stimulus callback is
invoked exactly once and the start timestamp is captured exactly once, but
the invocation comes strictly later than the capture, refuting that the
drawing callback is invoked no later than the capture of the start
timestamp. -/
theorem c6_counterexample :
    (runSetup c6t 0 []).1.filter isInvokeEv = [SetupEvent.invokeStimulus defaultCanvasId]
    ∧ (runSetup c6t 0 []).1.filter isCaptureEv = [SetupEvent.captureStart]
    ∧ ¬ ((runSetup c6t 0 []).1.findIdx isInvokeEv
          ≤ (runSetup c6t 0 []).1.findIdx isCaptureEv) := by
  refine ⟨rfl, rfl, by decide⟩

/-- C6 amended: on every successful setup, the renderer captures the start
timestamp immediately after the DOM write and invokes the drawing callback
exactly once, with the id of the stimulus surface — but strictly after the
start-timestamp capture (listener attachment sits in between), so measured
latency runs from just after rendering, not from the end of stimulus
drawing. -/
theorem c6_amended_invoke_after_capture (t : Trial) (now : Int) (doc0 : List Bool)
    (evs : List SetupEvent) (s : WState)
    (h : runSetup t now doc0 = (evs, Except.ok s)) :
    evs.filter isInvokeEv = [SetupEvent.invokeStimulus ((resolvedTrial t).canvasId.getD "")]
    ∧ evs.filter isCaptureEv = [SetupEvent.captureStart]
    ∧ evs.findIdx isCaptureEv < evs.findIdx isInvokeEv := by
  obtain ⟨cs, f, divs, hc, hf, hd, hs, he⟩ := runSetup_ok_inv h
  subst he
  have hE1inv : ∀ a ∈ (computeButtons t.button_html cs.length).1, isInvokeEv a = false := by
    intro a ha
    rw [mem_computeButtons_fst ha]
    rfl
  have hE1cap : ∀ a ∈ (computeButtons t.button_html cs.length).1, isCaptureEv a = false := by
    intro a ha
    rw [mem_computeButtons_fst ha]
    rfl
  have hAttInv : ∀ a ∈ attachEvents cs.length, isInvokeEv a = false := by
    intro a ha
    obtain ⟨i, hi⟩ := mem_attachEvents ha
    rw [hi]
    rfl
  have hArmInv : ∀ a ∈ armEvents t, isInvokeEv a = false := by
    intro a ha
    obtain ⟨k, d, hkd⟩ := mem_armEvents ha
    rw [hkd]
    rfl
  have hArmCap : ∀ a ∈ armEvents t, isCaptureEv a = false := by
    intro a ha
    obtain ⟨k, d, hkd⟩ := mem_armEvents ha
    rw [hkd]
    rfl
  refine ⟨?_, ?_, ?_⟩
  · have h1 : List.filter isInvokeEv (computeButtons t.button_html cs.length).1 = [] :=
      List.filter_eq_nil_iff.mpr (fun a ha => by simp [hE1inv a ha])
    have h2 : List.filter isInvokeEv (armEvents t) = [] :=
      List.filter_eq_nil_iff.mpr (fun a ha => by simp [hArmInv a ha])
    simp only [List.filter_append, h1, h2,
      filter_attachEvents isInvokeEv (fun i => rfl) cs.length]
    rfl
  · have h1 : List.filter isCaptureEv (computeButtons t.button_html cs.length).1 = [] :=
      List.filter_eq_nil_iff.mpr (fun a ha => by simp [hE1cap a ha])
    have h2 : List.filter isCaptureEv (armEvents t) = [] :=
      List.filter_eq_nil_iff.mpr (fun a ha => by simp [hArmCap a ha])
    simp only [List.filter_append, h1, h2,
      filter_attachEvents isCaptureEv (fun i => rfl) cs.length]
    rfl
  · have hshape :
        (computeButtons t.button_html cs.length).1
          ++ [SetupEvent.domWrite (pageHtml (canvasMarkup t) divs t.prompt),
              SetupEvent.captureStart]
          ++ attachEvents cs.length
          ++ [SetupEvent.invokeStimulus ((resolvedTrial t).canvasId.getD "")]
          ++ armEvents t
        = ((computeButtons t.button_html cs.length).1
            ++ [SetupEvent.domWrite (pageHtml (canvasMarkup t) divs t.prompt)])
          ++ (SetupEvent.captureStart
              :: (attachEvents cs.length
                  ++ (SetupEvent.invokeStimulus ((resolvedTrial t).canvasId.getD "")
                      :: armEvents t))) := by
      simp
    rw [hshape]
    have hpreCap : ∀ a ∈ (computeButtons t.button_html cs.length).1
        ++ [SetupEvent.domWrite (pageHtml (canvasMarkup t) divs t.prompt)],
        isCaptureEv a = false := by
      intro a ha
      rcases List.mem_append.mp ha with ha | ha
      · exact hE1cap a ha
      · simp at ha
        rw [ha]
        rfl
    have hpreInv : ∀ a ∈ (computeButtons t.button_html cs.length).1
        ++ [SetupEvent.domWrite (pageHtml (canvasMarkup t) divs t.prompt)],
        isInvokeEv a = false := by
      intro a ha
      rcases List.mem_append.mp ha with ha | ha
      · exact hE1inv a ha
      · simp at ha
        rw [ha]
        rfl
    rw [findIdx_append_of_none isCaptureEv _ _ hpreCap,
        findIdx_append_of_none isInvokeEv _ _ hpreInv]
    have hcap0 : List.findIdx isCaptureEv
        (SetupEvent.captureStart
          :: (attachEvents cs.length
              ++ (SetupEvent.invokeStimulus ((resolvedTrial t).canvasId.getD "")
                  :: armEvents t))) = 0 := by
      rw [List.findIdx_cons]
      rfl
    have hinvIdx : List.findIdx isInvokeEv
        (SetupEvent.captureStart
          :: (attachEvents cs.length
              ++ (SetupEvent.invokeStimulus ((resolvedTrial t).canvasId.getD "")
                  :: armEvents t)))
        = cs.length + 1 := by
      rw [List.findIdx_cons]
      show cond false 0 (List.findIdx isInvokeEv
        (attachEvents cs.length
          ++ (SetupEvent.invokeStimulus ((resolvedTrial t).canvasId.getD "")
              :: armEvents t)) + 1) = cs.length + 1
      rw [cond_false,
          findIdx_append_of_none isInvokeEv _ _ hAttInv,
          attachEvents_length]
      have : List.findIdx isInvokeEv
          (SetupEvent.invokeStimulus ((resolvedTrial t).canvasId.getD "")
            :: armEvents t) = 0 := by
        rw [List.findIdx_cons]
        rfl
      rw [this]
    rw [hcap0, hinvIdx]
    omega

/-- Witness for C6 amended at a concrete one-choice trial. -/
theorem c6_witness :
    (runSetup c6t 5 []).1.filter isInvokeEv
        = [SetupEvent.invokeStimulus ((resolvedTrial c6t).canvasId.getD "")]
    ∧ (runSetup c6t 5 []).1.filter isCaptureEv = [SetupEvent.captureStart]
    ∧ (runSetup c6t 5 []).1.findIdx isCaptureEv < (runSetup c6t 5 []).1.findIdx isInvokeEv := by
  exact c6_amended_invoke_after_capture c6t 5 [] (runSetup c6t 5 []).1
    (okState (runSetup c6t 5 [])) rfl

/-- C1 counterexample: with the supported anchor-element template and
`response_ends_trial = false`, a second activation after the recorded
response re-invokes `after_response` and overwrites the recorded reaction
time and button with those of the later click, refuting both "at most one
response is ever recorded" and "any activation after a response is
ignored". -/
theorem c1_counterexample :
    (runSetup c1ft 0 []).2 = Except.ok (okState (runSetup c1ft 0 []))
    ∧ (runEvents (okState (runSetup c1ft 0 [])) [Ev.click 0 100]).response.button
        = JVal.str "0"
    ∧ (runEvents (okState (runSetup c1ft 0 [])) [Ev.click 0 100]).response.rt
        = JVal.num 100
    ∧ (runEvents (okState (runSetup c1ft 0 [])) [Ev.click 0 100, Ev.click 1 200]).response.button
        = JVal.str "1"
    ∧ (runEvents (okState (runSetup c1ft 0 [])) [Ev.click 0 100, Ev.click 1 200]).response.rt
        = JVal.num 200
    ∧ JVal.str "1" ≠ JVal.str "0" := by
  exact ⟨rfl, by decide, by decide, by decide, by decide, by decide⟩

/-- C1 amended: `after_response` has no recorded-response guard — every
delivered activation unconditionally overwrites the response state with
its own click (second conjunct), so among delivered activations the last
one wins.  Only when `response_ends_trial` is set (the default) does the
first listener-covered click end the trial and remove the rendered
subtree, so that no later activation is delivered: then at most one
response is recorded, equal to the first accepted click, and further
activations leave the response state unchanged (first conjunct). -/
theorem c1_amended_response_overwrite :
    (∀ (t : Trial) (now : Int) (doc0 : List Bool) (evs : List SetupEvent) (s0 : WState),
      runSetup t now doc0 = (evs, Except.ok s0) →
      t.response_ends_trial = true →
      ∀ cs : List (Nat × Int),
        (match cs.find? (fun c => decide (c.1 < (s0.trial.choices.getD []).length)) with
         | none =>
            (runEvents s0 (cs.map (fun c => Ev.click c.1 c.2))).response.rt = JVal.null
            ∧ (runEvents s0 (cs.map (fun c => Ev.click c.1 c.2))).response.button = JVal.null
         | some c =>
            (runEvents s0 (cs.map (fun c => Ev.click c.1 c.2))).response.rt
                = JVal.num (c.2 - now)
            ∧ (runEvents s0 (cs.map (fun c => Ev.click c.1 c.2))).response.button
                = JVal.str (toString c.1))
        ∧ (∀ (i : Nat) (t2 : Int),
            (runEvents s0 (cs.map (fun c => Ev.click c.1 c.2))).response.button ≠ JVal.null →
            (step (runEvents s0 (cs.map (fun c => Ev.click c.1 c.2))) (Ev.click i t2)).response
              = (runEvents s0 (cs.map (fun c => Ev.click c.1 c.2))).response))
    ∧ (∀ (s : WState) (i : Nat) (t2 : Int), clickDelivered s i = true →
        (step s (Ev.click i t2)).response
          = { s.response with
              button := JVal.str (toString i)
              rt := JVal.num (t2 - s.startTime) }) := by
  constructor
  · intro t now doc0 evs s0 h hret cs
    obtain ⟨cs0, f, divs, hc, hf, hd, hs, he⟩ := runSetup_ok_inv h
    subst hs
    have hres : (freshState (resolvedTrial t) now doc0
        (f.run ((resolvedTrial t).canvasId.getD ""))
        (pageHtml (canvasMarkup t) divs t.prompt)).trial.response_ends_trial = true := by
      show (resolvedTrial t).response_ends_trial = true
      rw [resolvedTrial_response_ends_trial, hret]
    have hchar := @runEvents_clicks_char (freshState (resolvedTrial t) now doc0
      (f.run ((resolvedTrial t).canvasId.getD ""))
      (pageHtml (canvasMarkup t) divs t.prompt)) rfl hres cs
    cases hfind : cs.find? (fun c => decide (c.1 <
        ((freshState (resolvedTrial t) now doc0
          (f.run ((resolvedTrial t).canvasId.getD ""))
          (pageHtml (canvasMarkup t) divs t.prompt)).trial.choices.getD []).length)) with
    | none =>
      rw [hfind] at hchar
      constructor
      · rw [hchar]
        exact ⟨rfl, rfl⟩
      · intro i t2 hbtn
        rw [hchar] at hbtn
        exact absurd rfl hbtn
    | some c =>
      rw [hfind] at hchar
      constructor
      · rw [hchar, after_response_response]
        exact ⟨rfl, rfl⟩
      · intro i t2 _
        rw [hchar]
        have hnd : clickDelivered (after_response (freshState (resolvedTrial t) now doc0
            (f.run ((resolvedTrial t).canvasId.getD ""))
            (pageHtml (canvasMarkup t) divs t.prompt)) (toString c.1) c.2) i = false := by
          simp [clickDelivered, (after_response_of_ends _ (toString c.1) c.2 hres).2.1]
        rw [step_click_blocked hnd]
  · intro s i t2 hdel
    rw [step_click_delivered hdel, after_response_response]

/-- Witness for C1 amended: with response-ends-trial the out-of-range
click is ignored, the first in-range click is recorded and a later
activation changes nothing; and a delivered activation on a concrete
state overwrites the response with its own click. -/
theorem c1_witness :
    (runEvents (okState (runSetup c1t 0 [])) [Ev.click 5 100, Ev.click 0 200]).response.rt
        = JVal.num 200
    ∧ (runEvents (okState (runSetup c1t 0 [])) [Ev.click 5 100, Ev.click 0 200]).response.button
        = JVal.str "0"
    ∧ (step (runEvents (okState (runSetup c1t 0 [])) [Ev.click 5 100, Ev.click 0 200])
          (Ev.click 1 300)).response
        = (runEvents (okState (runSetup c1t 0 [])) [Ev.click 5 100, Ev.click 0 200]).response
    ∧ (step (okState (runSetup c1ft 0 [])) (Ev.click 1 200)).response
        = { (okState (runSetup c1ft 0 [])).response with
            button := JVal.str "1"
            rt := JVal.num 200 } := by
  have h := c1_amended_response_overwrite
  have h1 := h.1 c1t 0 [] (runSetup c1t 0 []).1 (okState (runSetup c1t 0 [])) rfl rfl
    [(5, 100), (0, 200)]
  exact ⟨h1.1.1, h1.1.2, h1.2 1 300 (by decide),
         h.2 (okState (runSetup c1ft 0 [])) 1 200 (by decide)⟩

/-- C4 counterexample: in the scenario configuration, a click on button 1
at 450 ms yields reaction time `num 450` but a `button_pressed` equal to
the attribute string `"1"`, which is not the number 1 the claim states. -/
theorem c4_counterexample :
    ((runEvents (okState (runSetup c4t 0 [])) [Ev.click 1 450]).finished.map
        (fun d => (d.rt, d.button_pressed))) = [(JVal.num 450, JVal.str "1")]
    ∧ JVal.str "1" ≠ JVal.num 1 := by
  exact ⟨by decide, by decide⟩

/-- C4 amended: for any start timestamp, the scenario click on index 1 at
450 ms after the start produces exactly one result whose reaction time is
the number 450 and whose chosen-button value is the string "1" (the
`data-choice` attribute value of the pressed button). -/
theorem c4_scenario_result (T : Int) :
    ((runEvents (okState (runSetup c4t T [])) [Ev.click 1 (T + 450)]).finished.map
        (fun d => (d.rt, d.button_pressed))) = [(JVal.num 450, JVal.str "1")] := by
  show [(JVal.num (T + 450 - T), JVal.str "1")] = [(JVal.num 450, JVal.str "1")]
  have harith : T + 450 - T = (450 : Int) := by omega
  rw [harith]

/-- C5: if a duration cap is configured and a qualifying click arrives
before it with response-ends-trial set, ending the trial clears every
pending timeout, and no continuation of events (in particular the
duration-timer firing) ever adds a second completion: the sink receives
exactly the one result reflecting the click. -/
theorem c5_click_cancels_timers (t : Trial) (now : Int) (doc0 : List Bool)
    (evs : List SetupEvent) (s0 : WState) (D : Int) (i : Nat) (tc : Int)
    (h : runSetup t now doc0 = (evs, Except.ok s0))
    (hD : t.trial_duration = some D)
    (hre : t.response_ends_trial = true)
    (ht : tc < D)
    (hi : i < (s0.trial.choices.getD []).length) :
    (step s0 (Ev.click i tc)).pending = []
    ∧ ∀ rest : List Ev,
        (runEvents (step s0 (Ev.click i tc)) rest).finished
          = [{ rt := JVal.num (tc - now)
               stimulus := t.stimulus
               button_pressed := JVal.str (toString i) }] := by
  obtain ⟨cs0, f, divs, hc, hf, hd, hs, he⟩ := runSetup_ok_inv h
  subst hs
  have hdel : clickDelivered (freshState (resolvedTrial t) now doc0
      (f.run ((resolvedTrial t).canvasId.getD ""))
      (pageHtml (canvasMarkup t) divs t.prompt)) i = true := by
    simp only [clickDelivered, Bool.and_eq_true, decide_eq_true_eq]
    exact ⟨hi, rfl⟩
  rw [step_click_delivered hdel]
  have hends : (freshState (resolvedTrial t) now doc0
      (f.run ((resolvedTrial t).canvasId.getD ""))
      (pageHtml (canvasMarkup t) divs t.prompt)).trial.response_ends_trial = true := by
    show (resolvedTrial t).response_ends_trial = true
    rw [resolvedTrial_response_ends_trial, hre]
  obtain ⟨hp, hbp, hfin⟩ := after_response_of_ends _ (toString i) tc hends
  refine ⟨hp, ?_⟩
  intro rest
  rw [runEvents_terminal hp hbp rest, hfin]
  show [] ++ [({ rt := JVal.num (tc - now)
                 stimulus := (resolvedTrial t).stimulus
                 button_pressed := JVal.str (toString i) } : TrialData)] = _
  rw [resolvedTrial_stimulus]
  rfl

/-- Witness for C5: the scenario click at 450 ms, followed by the
duration-timer event, still yields exactly one completion. -/
theorem c5_witness :
    (step (okState (runSetup c5t 0 [])) (Ev.click 1 450)).pending = []
    ∧ (runEvents (step (okState (runSetup c5t 0 [])) (Ev.click 1 450))
          [Ev.fire TKind.endTrial]).finished
        = [{ rt := JVal.num 450, stimulus := c5t.stimulus, button_pressed := JVal.str "1" }] := by
  have h := c5_click_cancels_timers c5t 0 [] (runSetup c5t 0 []).1
    (okState (runSetup c5t 0 [])) 2000 1 450 rfl rfl rfl (by decide) (by decide)
  exact ⟨h.1, h.2 [Ev.fire TKind.endTrial]⟩

end CanvasButtonResponse
